import Mathlib

/-!
# Verification of the multi-provider search-and-aggregation core

Shallow embedding of `src/services/search_api_manager.py`: the key rotation
store, the provider adapters, the interleaved search coordinator and the
massive-search aggregator, together with theorems settling the specification
claims about them.

Modelling conventions:
* Python dicts with a fixed field set become structures; a field whose key may
  be absent from the dict becomes an `Option`.
* Python string truthiness (`if s:`) is `truthyS`: `none` and `some ""` are
  falsy.
* The network, the collaborator services (WebSailor, social extractor, leads
  module) and the process environment are external inputs, passed as explicit
  parameters; an external call that may raise is an `Except String` value.
* Unexpected top-level exceptions (the aggregator's outermost `except` block)
  are modelled by an explicit fault-injection parameter naming the program
  point at which the unexpected exception is raised.
-/

/-- Python truthiness of an optional string: `None` and `""` are falsy. -/
def truthyS : Option String → Bool
  | none => false
  | some s => !(s == "")

/-- First-match association-list lookup, the model of a Python dict read
`d[k]` / `k in d`. -/
def lookupA {α : Type} : List (String × α) → String → Option α
  | [], _ => none
  | (k, v) :: rest, key => if k = key then some v else lookupA rest key

/-- Association-list update, the model of a Python dict write `d[k] = v`
(replaces the binding when present, appends it otherwise). -/
def setAssoc {α : Type} : List (String × α) → String → α → List (String × α)
  | [], key, v => [(key, v)]
  | (k, w) :: rest, key, v =>
    if k = key then (key, v) :: rest else (k, w) :: setAssoc rest key v

/-- A normalized search-result item as built by the adapters (lines 170-175,
218-223, 268-273 of the source): a dict with `title`/`snippet`/`source`
strings and possibly-absent `url`/`link` keys. -/
structure SearchItem where
  title : String := ""
  url : Option String := none
  link : Option String := none
  snippet : String := ""
  source : String := ""
deriving DecidableEq, Repr

/-- `item.get('url') or item.get('link')` (line 129 / line 374): the `url`
value when truthy, otherwise the `link` value. -/
def urlOrLink (it : SearchItem) : Option String :=
  if truthyS it.url then it.url else it.link

/-- The URL an item contributes to the deduplicated URL list: the
`url`-or-`link` value when that value is truthy (`if url and ...`,
lines 129-131 / 374-376), nothing otherwise. -/
def pickUrl (it : SearchItem) : Option String :=
  if truthyS (urlOrLink it) then urlOrLink it else none

/-- `item.get('url', item.get('link', 'N/A'))` (line 453): unlike `pickUrl`
the defaults trigger on key absence, not on emptiness. -/
def leadUrl (it : SearchItem) : String :=
  it.url.getD (it.link.getD "N/A")

/-- The result dict returned by one provider adapter: `success` flag,
optional `provider` tag, `results` item list (defaulting to `[]`, matching
`result.get('results', [])`), optional `error` message. -/
structure ProviderResult where
  success : Bool := false
  provider : Option String := none
  results : List SearchItem := []
  error : Option String := none
deriving DecidableEq, Repr

/-- One entry of the list `asyncio.gather(..., return_exceptions=True)` hands
to the coordinator loop (line 111): either an exception object or the
adapter's result dict. -/
inductive AdapterOutcome where
  | exn (msg : String)
  | res (r : ProviderResult)
deriving DecidableEq, Repr

/-- The success payload the coordinator retains from an outcome: `some r`
exactly when the outcome is a result dict whose `success` field is truthy
(line 122), `none` for exceptions and failure results. -/
def successResult : AdapterOutcome → Option ProviderResult
  | .exn _ => none
  | .res r => if r.success then some r else none

/-- The retained results of a list of outcomes, in outcome order. -/
def successResults (os : List AdapterOutcome) : List ProviderResult :=
  os.filterMap successResult

/-! ## Key Rotation Store (`_load_api_keys`, `get_next_api_key`) -/

/-- The provider roster (line 33). -/
def PROVIDERS : List String := ["SERPER", "GOOGLE", "EXA", "FIRECRAWL", "JINA"]

/-- The numbered-key loop of `_load_api_keys` (lines 44-51): collect
`PROVIDER_API_KEY_<counter>` values until the first gap. The Python loop is
unbounded; `fuel` bounds the search and any fuel at least the index of the
first gap yields the loop's value (the process environment is finite, so such
a gap exists). -/
def numberedKeys (env : String → Option String) (provider : String) :
    Nat → Nat → List String
  | _, 0 => []
  | counter, fuel + 1 =>
    let k := env (provider ++ "_API_KEY_" ++ toString counter)
    if truthyS k then k.getD "" :: numberedKeys env provider (counter + 1) fuel
    else []

/-- The credential list `_load_api_keys` builds for one provider
(lines 36-51): the unsuffixed `PROVIDER_API_KEY` when truthy, then the
numbered keys from suffix 1. -/
def collectKeysFor (env : String → Option String) (provider : String)
    (fuel : Nat) : List String :=
  (if truthyS (env (provider ++ "_API_KEY"))
   then [(env (provider ++ "_API_KEY")).getD ""] else []) ++
  numberedKeys env provider 1 fuel

/-- `_load_api_keys` (lines 29-57): providers whose collected credential list
is nonempty, each paired with that list; a provider with no credentials is
not inserted at all. -/
def load_api_keys (env : String → Option String) (fuel : Nat) :
    List (String × List String) :=
  PROVIDERS.filterMap (fun p =>
    let ks := collectKeysFor env p fuel
    if ks.isEmpty then none else some (p, ks))

/-- The manager state the rotation operation touches: `api_keys` (fixed after
construction) and the per-provider rotation cursors `key_indices`. The
`provider_stats` counters are write-only bookkeeping not consumed by any
claim and are omitted. -/
structure SearchAPIManager where
  api_keys : List (String × List String)
  key_indices : List (String × Nat)
deriving DecidableEq, Repr

/-- `__init__` (lines 21-24): load the pools and set every cursor to 0. -/
def mkManager (ak : List (String × List String)) : SearchAPIManager :=
  { api_keys := ak, key_indices := ak.map (fun pr => (pr.1, 0)) }

/-- `get_next_api_key` (lines 59-75): `none` when the provider is absent from
`api_keys` or its pool is empty; otherwise the key at the current cursor, with
the cursor advanced circularly. Python maintains `cursor < pool length`
(initialised to 0, always reassigned modulo the length); the out-of-range
access, unreachable under that invariant, is modelled as `none`. -/
def SearchAPIManager.get_next_api_key (m : SearchAPIManager)
    (provider : String) : Option String × SearchAPIManager :=
  match lookupA m.api_keys provider with
  | none => (none, m)
  | some keys =>
    if keys.isEmpty then (none, m)
    else
      let currentIndex := (lookupA m.key_indices provider).getD 0
      match keys[currentIndex]? with
      | none => (none, m)
      | some key =>
        let ki := setAssoc m.key_indices provider
          ((currentIndex + 1) % keys.length)
        (some key, { m with key_indices := ki })

/-- `N` consecutive `get_next_api_key` calls for one provider: the list of
returned credentials and the final manager state. -/
def runCalls (provider : String) : Nat → SearchAPIManager →
    List (Option String) × SearchAPIManager
  | 0, m => ([], m)
  | n + 1, m =>
    let step := m.get_next_api_key provider
    let rest := runCalls provider n step.2
    (step.1 :: rest.1, rest.2)

/-- A sequence of `get_next_api_key` calls for arbitrary providers, keeping
only the final state. -/
def applyCalls : List String → SearchAPIManager → SearchAPIManager
  | [], m => m
  | q :: qs, m => applyCalls qs (m.get_next_api_key q).2

/-! ## Interleaved Search Coordinator (`interleaved_search`) -/

/-- The coordinator's result dict (lines 81-88); `query` and `timestamp` are
opaque pass-through strings omitted from the model. -/
structure InterleavedOutcome where
  all_results : List ProviderResult := []
  successful_searches : Nat := 0
  failed_searches : Nat := 0
  consolidated_urls : List String := []
deriving DecidableEq, Repr

/-- Append a URL unless already present (`if url and url not in
consolidated_urls`, lines 130-131). -/
def addUrl (us : List String) (u : String) : List String :=
  if u ∈ us then us else us ++ [u]

/-- The URL-collection loop over one result's items (lines 128-131). -/
def collectUrls (us : List String) (items : List SearchItem) : List String :=
  items.foldl (fun acc it =>
    match pickUrl it with
    | some u => addUrl acc u
    | none => acc) us

/-- The per-outcome branch of the coordinator loop (lines 113-134):
exceptions and failure results bump `failed_searches`; success results are
retained, bump `successful_searches` and merge their URLs. -/
def processOutcome (acc : InterleavedOutcome) (o : AdapterOutcome) :
    InterleavedOutcome :=
  match o with
  | .exn _ => { acc with failed_searches := acc.failed_searches + 1 }
  | .res r =>
    if r.success then
      { acc with
        all_results := acc.all_results ++ [r],
        successful_searches := acc.successful_searches + 1,
        consolidated_urls := collectUrls acc.consolidated_urls r.results }
    else { acc with failed_searches := acc.failed_searches + 1 }

/-- The providers launched by `interleaved_search` (lines 93-106): those
present in `api_keys`, in roster order. -/
def launchedProviders (ak : List (String × List String)) : List String :=
  PROVIDERS.filter (fun p => (lookupA ak p).isSome)

/-- `interleaved_search` (lines 77-137). The adapters' network behaviour is
an oracle: `adapter p` is the gathered outcome of provider `p`'s task. The
coordinator folds the outcomes in gather order over the fresh result dict. -/
def interleaved_search (ak : List (String × List String))
    (adapter : String → AdapterOutcome) : InterleavedOutcome :=
  ((launchedProviders ak).map adapter).foldl processOutcome {}

/-! ## Provider adapters (`_search_serper`, `_search_google`) -/

/-- One native response item as the adapters read it (`item.get(...)` with
string defaults): every consumed key possibly absent. -/
structure RawItem where
  title : Option String := none
  link : Option String := none
  snippet : Option String := none
deriving DecidableEq, Repr

/-- What the network does for one adapter call: an HTTP response with a
status code and parsed item list, or a raised exception. -/
inductive NetOutcome where
  | response (status : Nat) (items : List RawItem)
  | raises (msg : String)
deriving DecidableEq, Repr

/-- Serper item normalization (lines 170-175): `url` is set from the native
`link` (defaulting to `""`), no `link` key is written. -/
def serperItem (it : RawItem) : SearchItem :=
  { title := it.title.getD "", url := some (it.link.getD ""),
    snippet := it.snippet.getD "", source := "serper" }

/-- `_search_serper` (lines 139-187): missing/empty credential, non-200
status and caught exceptions each yield a failure dict with only `success`
and `error` keys; the success dict carries `provider` and the normalized
items. -/
def search_serper (api_key : Option String) (net : NetOutcome) :
    ProviderResult :=
  if !truthyS api_key then
    { success := false, error := some "Serper API key nao disponivel" }
  else
    match net with
    | .raises msg => { success := false, error := some msg }
    | .response status items =>
      if status = 200 then
        { success := true, provider := some "SERPER",
          results := items.map serperItem }
      else
        { success := false, error := some ("HTTP " ++ toString status) }

/-- Google item normalization (lines 218-223). -/
def googleItem (it : RawItem) : SearchItem :=
  { title := it.title.getD "", url := some (it.link.getD ""),
    snippet := it.snippet.getD "", source := "google" }

/-- `_search_google` (lines 189-235): same failure shape as Serper, with the
credential check also requiring a truthy `GOOGLE_CSE_ID`. -/
def search_google (api_key cse_id : Option String) (net : NetOutcome) :
    ProviderResult :=
  if !truthyS api_key || !truthyS cse_id then
    { success := false, error := some "Google API nao configurado" }
  else
    match net with
    | .raises msg => { success := false, error := some msg }
    | .response status items =>
      if status = 200 then
        { success := true, provider := some "GOOGLE",
          results := items.map googleItem }
      else
        { success := false, error := some ("HTTP " ++ toString status) }

/-! ## Massive Search Aggregator (`execute_massive_search_with_websailor`) -/

/-- The slice of the WebSailor result the aggregator reads (lines 394-395):
`navegacao_profunda.total_paginas_analisadas`, each key possibly absent. -/
structure NavStats where
  total_paginas_analisadas : Option Nat := none
deriving DecidableEq, Repr

structure WebsailorResult where
  navegacao_profunda : Option NavStats := none
deriving DecidableEq, Repr

/-- `websailor_result.get('navegacao_profunda', {}).get('total_paginas_analisadas', 0)`. -/
def websailorPages (w : WebsailorResult) : Nat :=
  match w.navegacao_profunda with
  | some ns => ns.total_paginas_analisadas.getD 0
  | none => 0

/-- The slice of the social-extraction result the aggregator reads
(lines 416-418), each key possibly absent (`.get(..., [])`). Posts,
screenshots and images are opaque payloads modelled as strings. -/
structure SocialResult where
  social_content : Option (List String) := none
  screenshots : Option (List String) := none
  images_extracted : Option (List String) := none
deriving DecidableEq, Repr

/-- A stage-result slot of the aggregate dict: the initial `{}` placeholder,
a stored collaborator result, or the inline `{'error': msg}` marker. -/
inductive StageField (α : Type) where
  | initial
  | ok (v : α)
  | err (msg : String)
deriving DecidableEq, Repr

/-- The `statistics` sub-dict (lines 348-356). `leads_count` is absent from
the initial dict and only written by stage 4, hence an `Option`. -/
structure Statistics where
  total_sources : Nat := 0
  api_sources : Nat := 0
  websailor_pages : Nat := 0
  social_posts : Nat := 0
  screenshots_count : Nat := 0
  images_count : Nat := 0
  search_duration : Nat := 0
  leads_count : Option Nat := none
deriving DecidableEq, Repr

/-- The aggregate result dict (lines 338-357). `api_results`,
`consolidated_urls` and `leads_extracted` hold `none` until their stage
assigns them (`api_results` is initialised to the `{}` placeholder, the other
two keys are absent from the initial dict). Leads are opaque records modelled
as strings. -/
structure MassiveResult where
  api_results : Option (List ProviderResult) := none
  websailor_results : StageField WebsailorResult := .initial
  social_results : StageField SocialResult := .initial
  viral_content : List String := []
  screenshots_captured : List String := []
  images_extracted : List String := []
  consolidated_urls : Option (List String) := none
  leads_extracted : Option (List String) := none
  statistics : Statistics := {}
  error : Option String := none
deriving DecidableEq, Repr

/-- Program points of the aggregator's top-level `try` body lying outside
every stage-level handler, at which an unexpected exception (the kind the
outermost `except` at lines 490-494 exists to catch) can be injected:
during the API-search call (nothing assigned yet), during the URL
consolidation loop (lines 369-377, `api_results` and `api_sources` already
assigned), and after the stages but before the final statistics block
(line 476). -/
inductive CatPoint where
  | duringApiSearch
  | duringConsolidation
  | beforeFinalStats
deriving DecidableEq, Repr

/-- The message of the injected fault when it sits at point `p`. -/
def catAt (cf : Option (CatPoint × String)) (p : CatPoint) : Option String :=
  match cf with
  | some (q, msg) => if q = p then some msg else none
  | none => none

/-- The outermost `except` block (lines 490-494): record the message in the
top-level `error` field, attach the elapsed duration, return the partial
result. -/
def abortWith (elapsed : Nat) (m : MassiveResult) (msg : String) :
    MassiveResult :=
  { m with error := some msg,
           statistics := { m.statistics with search_duration := elapsed } }

/-- The aggregator-side URL consolidation (lines 370-378): same URL logic as
the coordinator, guarded by truthiness of each result's `results` list. -/
def aggConsolidate (rs : List ProviderResult) : List String :=
  rs.foldl (fun us r =>
    if r.results.isEmpty then us else collectUrls us r.results) []

/-- The lead-extraction loop (lines 449-455): for every item of every
retained provider result with a truthy `results` list, apply the external
item-to-leads function and accumulate. -/
def extractLeadsFromResults (extract : SearchItem → String → List String)
    (rs : List ProviderResult) : List String :=
  rs.foldl (fun acc r =>
    if r.results.isEmpty then acc
    else r.results.foldl (fun a it => a ++ extract it (leadUrl it)) acc) []

/-- `execute_massive_search_with_websailor` (lines 329-494).

External inputs: `ak`/`adapter` feed the coordinator call (stage 1);
`websailor` is the deep-navigation collaborator's outcome (stage 2, an
exception when `Except.error`); `social` is the social-extraction
collaborator, applied to the API-stage results (stage 3); `extract` is the
external pure item-to-leads function and `leadsFault` an exception raised
anywhere inside stage 4's `try` (import, extraction or persistence — the
handler at lines 471-474 resets the lead fields and records nothing else);
`catFault` injects an unexpected top-level exception at the given
`CatPoint`; `elapsed` is the wall-clock duration measured at whichever
return is reached. -/
def execute_massive_search_with_websailor
    (ak : List (String × List String)) (adapter : String → AdapterOutcome)
    (websailor : Except String WebsailorResult)
    (social : List ProviderResult → Except String SocialResult)
    (extract : SearchItem → String → List String)
    (leadsFault : Option String)
    (catFault : Option (CatPoint × String))
    (elapsed : Nat) : MassiveResult :=
  let m0 : MassiveResult := {}
  match catAt catFault .duringApiSearch with
  | some msg => abortWith elapsed m0 msg
  | none =>
    let apiOutcome := interleaved_search ak adapter
    let api_results_list := apiOutcome.all_results
    let m1 := { m0 with
      api_results := some api_results_list,
      statistics := { m0.statistics with
        api_sources := api_results_list.length } }
    match catAt catFault .duringConsolidation with
    | some msg => abortWith elapsed m1 msg
    | none =>
      let m2 := { m1 with
        consolidated_urls := some (aggConsolidate api_results_list) }
      let m3 := match websailor with
        | .ok w =>
          { m2 with websailor_results := .ok w,
                    statistics := { m2.statistics with
                      websailor_pages := websailorPages w } }
        | .error e => { m2 with websailor_results := .err e }
      let m4 := match social api_results_list with
        | .ok s =>
          let viral := s.social_content.getD []
          let shots := s.screenshots.getD []
          let imgs := s.images_extracted.getD []
          { m3 with social_results := .ok s,
                    viral_content := viral,
                    screenshots_captured := shots,
                    images_extracted := imgs,
                    statistics := { m3.statistics with
                      social_posts := viral.length,
                      screenshots_count := shots.length,
                      images_count := imgs.length } }
        | .error e => { m3 with social_results := .err e }
      let m5 := match leadsFault with
        | some _ =>
          { m4 with leads_extracted := some [],
                    statistics := { m4.statistics with
                      leads_count := some 0 } }
        | none =>
          let leads := extractLeadsFromResults extract api_results_list
          { m4 with leads_extracted := some leads,
                    statistics := { m4.statistics with
                      leads_count := some leads.length } }
      match catAt catFault .beforeFinalStats with
      | some msg => abortWith elapsed m5 msg
      | none =>
        { m5 with statistics := { m5.statistics with
            total_sources := m5.statistics.api_sources +
              m5.statistics.websailor_pages + m5.statistics.social_posts,
            search_duration := elapsed } }

/-- The flat list of URLs the successful results contribute, in order. -/
def urlsOfResults : List ProviderResult → List String
  | [] => []
  | r :: rs => r.results.filterMap pickUrl ++ urlsOfResults rs

/-- A provider has at least one configured credential: present in `api_keys`
with a nonempty pool. -/
def hasCredential (ak : List (String × List String)) (p : String) : Bool :=
  match lookupA ak p with
  | some ks => !ks.isEmpty
  | none => false

/-! ## Coordinator lemmas -/

/-- Outcomes with no retained success bump only the failure counter. -/
theorem processOutcome_none {acc : InterleavedOutcome} {o : AdapterOutcome}
    (h : successResult o = none) :
    processOutcome acc o =
      { acc with failed_searches := acc.failed_searches + 1 } := by
  cases o with
  | exn m => rfl
  | res r =>
    simp only [successResult] at h
    by_cases hs : r.success
    · simp [hs] at h
    · simp [processOutcome, hs]

/-- Retained successes are appended, counted, and their URLs merged. -/
theorem processOutcome_some {acc : InterleavedOutcome} {o : AdapterOutcome}
    {r : ProviderResult} (h : successResult o = some r) :
    processOutcome acc o =
      { acc with
          all_results := acc.all_results ++ [r],
          successful_searches := acc.successful_searches + 1,
          consolidated_urls := collectUrls acc.consolidated_urls r.results } := by
  cases o with
  | exn m => simp [successResult] at h
  | res r0 =>
    simp only [successResult] at h
    by_cases hs : r0.success
    · simp [hs] at h
      subst h
      simp [processOutcome, hs]
    · simp [hs] at h

theorem foldl_successful (os : List AdapterOutcome) :
    ∀ acc : InterleavedOutcome,
    (os.foldl processOutcome acc).successful_searches =
      acc.successful_searches +
        os.countP (fun o => (successResult o).isSome) := by
  induction os with
  | nil => intro acc; simp
  | cons o os ih =>
    intro acc
    cases h : successResult o with
    | none =>
      rw [List.foldl_cons, processOutcome_none h, ih]
      simp [List.countP_cons, h]
    | some r =>
      rw [List.foldl_cons, processOutcome_some h, ih]
      simp [List.countP_cons, h]
      omega

theorem foldl_failed (os : List AdapterOutcome) :
    ∀ acc : InterleavedOutcome,
    (os.foldl processOutcome acc).failed_searches =
      acc.failed_searches +
        os.countP (fun o => (successResult o).isNone) := by
  induction os with
  | nil => intro acc; simp
  | cons o os ih =>
    intro acc
    cases h : successResult o with
    | none =>
      rw [List.foldl_cons, processOutcome_none h, ih]
      simp [List.countP_cons, h]
      omega
    | some r =>
      rw [List.foldl_cons, processOutcome_some h, ih]
      simp [List.countP_cons, h]

theorem foldl_all_results (os : List AdapterOutcome) :
    ∀ acc : InterleavedOutcome,
    (os.foldl processOutcome acc).all_results =
      acc.all_results ++ successResults os := by
  induction os with
  | nil => intro acc; simp [successResults]
  | cons o os ih =>
    intro acc
    cases h : successResult o with
    | none =>
      rw [List.foldl_cons, processOutcome_none h, ih]
      simp [successResults, List.filterMap_cons, h]
    | some r =>
      rw [List.foldl_cons, processOutcome_some h, ih]
      simp [successResults, List.filterMap_cons, h]

theorem foldl_consolidated (os : List AdapterOutcome) :
    ∀ acc : InterleavedOutcome,
    (os.foldl processOutcome acc).consolidated_urls =
      (successResults os).foldl (fun us r => collectUrls us r.results)
        acc.consolidated_urls := by
  induction os with
  | nil => intro acc; simp [successResults]
  | cons o os ih =>
    intro acc
    cases h : successResult o with
    | none =>
      rw [List.foldl_cons, processOutcome_none h, ih]
      simp [successResults, List.filterMap_cons, h]
    | some r =>
      rw [List.foldl_cons, processOutcome_some h, ih]
      simp [successResults, List.filterMap_cons, h]

theorem addUrl_nodup {us : List String} (u : String) (h : us.Nodup) :
    (addUrl us u).Nodup := by
  by_cases hm : u ∈ us
  · simpa [addUrl, hm] using h
  · simp [addUrl, hm, List.nodup_append, h]

theorem addUrl_toFinset (us : List String) (u : String) :
    (addUrl us u).toFinset = insert u us.toFinset := by
  by_cases hm : u ∈ us
  · have hmf : u ∈ us.toFinset := List.mem_toFinset.mpr hm
    simp [addUrl, hm, Finset.insert_eq_self.mpr hmf]
  · simp only [addUrl, hm, if_neg]
    ext a
    simp [List.mem_toFinset, or_comm]

theorem collectUrls_cons (us : List String) (it : SearchItem)
    (items : List SearchItem) :
    collectUrls us (it :: items) =
      collectUrls (match pickUrl it with
        | some u => addUrl us u
        | none => us) items := rfl

theorem collectUrls_nodup (items : List SearchItem) :
    ∀ us : List String, us.Nodup → (collectUrls us items).Nodup := by
  induction items with
  | nil => intro us h; exact h
  | cons it items ih =>
    intro us h
    rw [collectUrls_cons]
    cases hp : pickUrl it with
    | none => exact ih us h
    | some u => exact ih (addUrl us u) (addUrl_nodup u h)

theorem collectUrls_toFinset (items : List SearchItem) :
    ∀ us : List String,
    (collectUrls us items).toFinset =
      us.toFinset ∪ (items.filterMap pickUrl).toFinset := by
  induction items with
  | nil => intro us; simp [collectUrls]
  | cons it items ih =>
    intro us
    rw [collectUrls_cons]
    cases hp : pickUrl it with
    | none => simp [ih, List.filterMap_cons, hp]
    | some u =>
      simp only [hp]
      rw [ih, addUrl_toFinset]
      simp only [List.filterMap_cons, hp]
      ext a
      simp [List.mem_toFinset]

theorem resultsFold_nodup (rs : List ProviderResult) :
    ∀ us : List String, us.Nodup →
    (rs.foldl (fun us r => collectUrls us r.results) us).Nodup := by
  induction rs with
  | nil => intro us h; exact h
  | cons r rs ih =>
    intro us h
    exact ih (collectUrls us r.results) (collectUrls_nodup r.results us h)

theorem resultsFold_toFinset (rs : List ProviderResult) :
    ∀ us : List String,
    (rs.foldl (fun us r => collectUrls us r.results) us).toFinset =
      us.toFinset ∪ (urlsOfResults rs).toFinset := by
  induction rs with
  | nil => intro us; simp [urlsOfResults]
  | cons r rs ih =>
    intro us
    rw [List.foldl_cons, ih, collectUrls_toFinset]
    simp only [urlsOfResults]
    ext a
    simp [List.mem_toFinset]

/-- The guard `if provider_result.get('results'):` is redundant for the URL
fold: an empty item list merges nothing. -/
theorem aggConsolidate_eq_fold (rs : List ProviderResult) :
    aggConsolidate rs =
      rs.foldl (fun us r => collectUrls us r.results) [] := by
  have hfun : (fun (us : List String) (r : ProviderResult) =>
      if r.results.isEmpty then us else collectUrls us r.results) =
      (fun us r => collectUrls us r.results) := by
    funext us r
    by_cases h : r.results.isEmpty
    · rw [List.isEmpty_iff] at h
      simp [h, collectUrls]
    · simp [h]
  rw [aggConsolidate, hfun]

theorem pickUrl_ne_empty {it : SearchItem} {u : String}
    (h : pickUrl it = some u) : u ≠ "" := by
  unfold pickUrl at h
  by_cases ht : truthyS (urlOrLink it)
  · rw [if_pos ht] at h
    rw [h] at ht
    simpa [truthyS] using ht
  · rw [if_neg ht] at h
    exact absurd h (by simp)

theorem urlsOfResults_ne_empty {rs : List ProviderResult} :
    ∀ u ∈ urlsOfResults rs, u ≠ "" := by
  induction rs with
  | nil => intro u h; cases h
  | cons r rs ih =>
    intro u h
    rw [urlsOfResults, List.mem_append] at h
    cases h with
    | inl h =>
      obtain ⟨it, _, hp⟩ := List.mem_filterMap.mp h
      exact pickUrl_ne_empty hp
    | inr h => exact ih u h

/-- `lookupA` hits an actual entry of the list. -/
theorem lookupA_mem {α : Type} {l : List (String × α)} {key : String}
    {v : α} (h : lookupA l key = some v) : (key, v) ∈ l := by
  induction l with
  | nil => cases h
  | cons pr rest ih =>
    obtain ⟨k, w⟩ := pr
    by_cases hk : k = key
    · subst hk
      simp [lookupA] at h
      subst h
      exact List.mem_cons_self _ _
    · simp [lookupA, hk] at h
      exact List.mem_cons_of_mem _ (ih h)

theorem countP_isSome_add_isNone (os : List AdapterOutcome) :
    os.countP (fun o => (successResult o).isSome) +
      os.countP (fun o => (successResult o).isNone) = os.length := by
  induction os with
  | nil => rfl
  | cons o os ih =>
    cases h : successResult o <;> simp [List.countP_cons, h] <;> omega

/-- The consolidated URL list's length is the number of distinct URLs
contributed by the retained (successful) results. -/
theorem interleaved_length_eq_card (ak : List (String × List String))
    (adapter : String → AdapterOutcome) :
    (interleaved_search ak adapter).consolidated_urls.length =
      (urlsOfResults (successResults
        ((launchedProviders ak).map adapter))).toFinset.card := by
  have key : (interleaved_search ak adapter).consolidated_urls =
      (successResults ((launchedProviders ak).map adapter)).foldl
        (fun us r => collectUrls us r.results) [] :=
    foldl_consolidated ((launchedProviders ak).map adapter) {}
  have hn : ((successResults ((launchedProviders ak).map adapter)).foldl
      (fun us r => collectUrls us r.results) ([] : List String)).Nodup :=
    resultsFold_nodup _ [] (by simp)
  rw [key, ← List.toFinset_card_of_nodup hn, resultsFold_toFinset]
  simp

/-- **C3**: when, among the launched providers, exactly 2 adapters return a
success and 1 returns a failure (an exception or a non-success result), the
coordinator records `successful_searches = 2`, `failed_searches = 1`, and
the deduplicated `consolidated_urls` list has exactly one entry per distinct
URL across the successful providers' items (first occurrence wins, order
preserved — the list is the dedup-by-first-occurrence of those URLs). -/
theorem c3_two_success_one_failure (ak : List (String × List String))
    (adapter : String → AdapterOutcome)
    (h2 : ((launchedProviders ak).map adapter).countP
      (fun o => (successResult o).isSome) = 2)
    (h1 : ((launchedProviders ak).map adapter).countP
      (fun o => (successResult o).isNone) = 1) :
    (interleaved_search ak adapter).successful_searches = 2 ∧
    (interleaved_search ak adapter).failed_searches = 1 ∧
    (interleaved_search ak adapter).consolidated_urls.length =
      (urlsOfResults (successResults
        ((launchedProviders ak).map adapter))).toFinset.card := by
  refine ⟨?_, ?_, interleaved_length_eq_card ak adapter⟩
  · have hs : (interleaved_search ak adapter).successful_searches =
        0 + ((launchedProviders ak).map adapter).countP
          (fun o => (successResult o).isSome) :=
      foldl_successful ((launchedProviders ak).map adapter) {}
    rw [hs, h2]
  · have hf : (interleaved_search ak adapter).failed_searches =
        0 + ((launchedProviders ak).map adapter).countP
          (fun o => (successResult o).isNone) :=
      foldl_failed ((launchedProviders ak).map adapter) {}
    rw [hf, h1]

/-- Witness for C3: SERPER and GOOGLE succeed with overlapping URLs
(`a`,`b` and `b`,`c`), EXA fails; the coordinator reports 2/1 and three
deduplicated URLs. -/
theorem c3_two_success_one_failure_witness :
    (interleaved_search [("SERPER", ["k"]), ("GOOGLE", ["k"]), ("EXA", ["k"])] (fun p => if p = "SERPER" then .res { success := true, results := [{ url := some "a" }, { url := some "b" }] } else if p = "GOOGLE" then .res { success := true, results := [{ url := some "b" }, { url := some "c" }] } else .res { success := false, error := some "HTTP 500" })).successful_searches = 2 := by
  have T := c3_two_success_one_failure
    [("SERPER", ["k"]), ("GOOGLE", ["k"]), ("EXA", ["k"])]
    (fun p => if p = "SERPER" then .res { success := true, results := [{ url := some "a" }, { url := some "b" }] } else if p = "GOOGLE" then .res { success := true, results := [{ url := some "b" }, { url := some "c" }] } else .res { success := false, error := some "HTTP 500" })
    (by decide) (by decide)
  exact T.1

/-- **C7**: when every launched adapter's outcome is a failure (an exception
or a result without a truthy `success`), the coordinator still returns a
well-formed outcome — the model is a total function, mirroring that the
Python loop raises nothing on this path — with `successful_searches = 0`
and `all_results = []`. -/
theorem c7_all_fail_returns (ak : List (String × List String))
    (adapter : String → AdapterOutcome)
    (hall : ∀ o ∈ (launchedProviders ak).map adapter,
      successResult o = none) :
    (interleaved_search ak adapter).successful_searches = 0 ∧
    (interleaved_search ak adapter).all_results = [] := by
  constructor
  · have hs : (interleaved_search ak adapter).successful_searches =
        0 + ((launchedProviders ak).map adapter).countP
          (fun o => (successResult o).isSome) :=
      foldl_successful ((launchedProviders ak).map adapter) {}
    rw [hs]
    simp only [Nat.zero_add]
    rw [List.countP_eq_zero]
    intro o ho
    simp [hall o ho]
  · have ha : (interleaved_search ak adapter).all_results =
        [] ++ successResults ((launchedProviders ak).map adapter) :=
      foldl_all_results ((launchedProviders ak).map adapter) {}
    rw [ha]
    simp only [List.nil_append, successResults]
    rw [List.filterMap_eq_nil_iff]
    exact hall

/-- Witness for C7: two configured providers, one raising, one failing. -/
theorem c7_all_fail_returns_witness :
    (interleaved_search [("SERPER", ["k"]), ("GOOGLE", ["g"])] (fun p => if p = "SERPER" then .exn "boom" else .res { success := false, error := some "HTTP 500" })).successful_searches = 0 ∧
    (interleaved_search [("SERPER", ["k"]), ("GOOGLE", ["g"])] (fun p => if p = "SERPER" then .exn "boom" else .res { success := false, error := some "HTTP 500" })).all_results = [] :=
  c7_all_fail_returns [("SERPER", ["k"]), ("GOOGLE", ["g"])] (fun p => if p = "SERPER" then .exn "boom" else .res { success := false, error := some "HTTP 500" }) (by decide)

/-- **C9**: every launched adapter's outcome is counted exactly once, so
`successful_searches + failed_searches` equals the number of providers with
at least one configured credential (providers absent from `api_keys` — and
under the loader's invariant those are exactly the ones without credentials —
are launched as no task and counted in neither counter). -/
theorem c9_counters_partition (ak : List (String × List String))
    (adapter : String → AdapterOutcome)
    (hinv : ∀ pr ∈ ak, pr.2 ≠ ([] : List String)) :
    (interleaved_search ak adapter).successful_searches +
      (interleaved_search ak adapter).failed_searches =
      (PROVIDERS.filter (fun p => hasCredential ak p)).length := by
  have hs : (interleaved_search ak adapter).successful_searches =
      0 + ((launchedProviders ak).map adapter).countP
        (fun o => (successResult o).isSome) :=
    foldl_successful ((launchedProviders ak).map adapter) {}
  have hf : (interleaved_search ak adapter).failed_searches =
      0 + ((launchedProviders ak).map adapter).countP
        (fun o => (successResult o).isNone) :=
    foldl_failed ((launchedProviders ak).map adapter) {}
  rw [hs, hf]
  simp only [Nat.zero_add]
  rw [countP_isSome_add_isNone, List.length_map]
  unfold launchedProviders
  congr 1
  apply List.filter_congr
  intro p _
  cases hlk : lookupA ak p with
  | none => simp [hasCredential, hlk]
  | some ks =>
    have hne := hinv (p, ks) (lookupA_mem hlk)
    simp [hasCredential, hlk, List.isEmpty_iff, hne]

/-- Witness for C9: three providers configured (nonempty pools), of the
five in the roster, all outcomes mixed; both sides evaluate to 3. -/
theorem c9_counters_partition_witness :
    (interleaved_search [("SERPER", ["k"]), ("EXA", ["e"]), ("JINA", ["j"])] (fun p => if p = "EXA" then .exn "boom" else .res { success := true })).successful_searches +
    (interleaved_search [("SERPER", ["k"]), ("EXA", ["e"]), ("JINA", ["j"])] (fun p => if p = "EXA" then .exn "boom" else .res { success := true })).failed_searches =
    (PROVIDERS.filter (fun p => hasCredential [("SERPER", ["k"]), ("EXA", ["e"]), ("JINA", ["j"])] p)).length :=
  c9_counters_partition [("SERPER", ["k"]), ("EXA", ["e"]), ("JINA", ["j"])] (fun p => if p = "EXA" then .exn "boom" else .res { success := true }) (by decide)

/-- **C10**: every entry of `consolidated_urls` is a non-empty string; an
item whose `url` and `link` are both absent or empty contributes no URL
(its `pickUrl` is `none`, so the merge loop appends nothing); when `url` is
non-empty it takes precedence over `link`. -/
theorem c10_urls_nonempty_and_precedence (ak : List (String × List String))
    (adapter : String → AdapterOutcome) :
    (∀ u ∈ (interleaved_search ak adapter).consolidated_urls, u ≠ "") ∧
    (∀ it : SearchItem, truthyS it.url = false → truthyS it.link = false →
      pickUrl it = none) ∧
    (∀ it : SearchItem, truthyS it.url = true → pickUrl it = it.url) := by
  refine ⟨?_, ?_, ?_⟩
  · intro u hu
    have key : (interleaved_search ak adapter).consolidated_urls =
        (successResults ((launchedProviders ak).map adapter)).foldl
          (fun us r => collectUrls us r.results) [] :=
      foldl_consolidated ((launchedProviders ak).map adapter) {}
    rw [key] at hu
    have h1 := List.mem_toFinset.mpr hu
    rw [resultsFold_toFinset] at h1
    simp only [List.toFinset_nil, Finset.empty_union, List.mem_toFinset]
      at h1
    exact urlsOfResults_ne_empty u h1
  · intro it hu hl
    simp [pickUrl, urlOrLink, hu, hl]
  · intro it hu
    simp [pickUrl, urlOrLink, hu]

/-- Witness for C10 at concrete inputs: the collected URL `a` is non-empty,
an all-empty item picks no URL, and `url` wins over `link`. -/
theorem c10_urls_nonempty_and_precedence_witness :
    ("a" : String) ≠ "" ∧
    pickUrl { url := some "", link := some "" } = none ∧
    pickUrl { url := some "a", link := some "b" } = some "a" := by
  have T := c10_urls_nonempty_and_precedence [("SERPER", ["k"])]
    (fun _ => .res { success := true, results := [{ url := some "a" }] })
  refine ⟨T.1 "a" (by decide), T.2.1 _ (by decide) (by decide), ?_⟩
  have h := T.2.2 { url := some "a", link := some "b" } (by decide)
  simpa using h

/-! ## Rotation store lemmas -/

theorem lookupA_setAssoc_self {α : Type} (l : List (String × α))
    (k : String) (v : α) : lookupA (setAssoc l k v) k = some v := by
  induction l with
  | nil => simp [setAssoc, lookupA]
  | cons pr rest ih =>
    obtain ⟨k0, w⟩ := pr
    by_cases h : k0 = k
    · subst h
      simp [setAssoc, lookupA]
    · simp [setAssoc, lookupA, h, ih]

theorem lookupA_map_zero (ak : List (String × List String)) (p : String) :
    lookupA (ak.map (fun pr => (pr.1, 0))) p =
      (lookupA ak p).map (fun _ => (0 : Nat)) := by
  induction ak with
  | nil => rfl
  | cons pr rest ih =>
    obtain ⟨k, v⟩ := pr
    by_cases h : k = p
    · simp [lookupA, h]
    · simp [lookupA, h, ih]

theorem getD_eq_getElem_of_lt {l : List String} {n : Nat}
    (h : n < l.length) : l.getD n "" = l[n] := by
  rw [List.getD_eq_getElem?_getD, List.getElem?_eq_getElem h]
  rfl

/-- One rotation step under the cursor invariant: returns the key at the
cursor and advances the cursor circularly. -/
theorem get_next_api_key_spec (m : SearchAPIManager) (p : String)
    (keys : List String) (c : Nat)
    (hak : lookupA m.api_keys p = some keys)
    (hc : c < keys.length)
    (hki : lookupA m.key_indices p = some c) :
    m.get_next_api_key p =
      (some (keys.getD c ""),
       { m with key_indices :=
           setAssoc m.key_indices p ((c + 1) % keys.length) }) := by
  have hne : keys.isEmpty = false := by
    cases keys with
    | nil => simp at hc
    | cons a l => rfl
  have hkc : keys[c]? = some (keys.getD c "") := by
    rw [List.getElem?_eq_getElem hc, getD_eq_getElem_of_lt hc]
  unfold SearchAPIManager.get_next_api_key
  rw [hak]
  simp only [hne, Bool.false_eq_true, if_false, hki, Option.getD_some, hkc]

theorem get_next_api_key_absent (m : SearchAPIManager) (p : String)
    (h : lookupA m.api_keys p = none) :
    m.get_next_api_key p = (none, m) := by
  unfold SearchAPIManager.get_next_api_key
  rw [h]

/-- The rotation never touches `api_keys`. -/
theorem get_next_api_key_api_keys (m : SearchAPIManager) (q : String) :
    ((m.get_next_api_key q).2).api_keys = m.api_keys := by
  unfold SearchAPIManager.get_next_api_key
  cases h : lookupA m.api_keys q with
  | none => rfl
  | some keys =>
    by_cases he : keys.isEmpty
    · simp [he]
    · simp only [he, Bool.false_eq_true, if_false]
      cases hk : keys[(lookupA m.key_indices q).getD 0]? with
      | none => rfl
      | some key => rfl

theorem applyCalls_api_keys (calls : List String) :
    ∀ m : SearchAPIManager, (applyCalls calls m).api_keys = m.api_keys := by
  induction calls with
  | nil => intro m; rfl
  | cons q qs ih =>
    intro m
    rw [applyCalls, ih, get_next_api_key_api_keys]

/-- Evolution of `N` consecutive rotation calls for one provider, from any
valid cursor: the returned keys follow the cyclic index sequence and the
final cursor is the start cursor advanced by `N` modulo the pool size. -/
theorem runCalls_spec (p : String) (keys : List String)
    (hP : 0 < keys.length) :
    ∀ (N : Nat) (m : SearchAPIManager) (c : Nat),
      lookupA m.api_keys p = some keys → c < keys.length →
      lookupA m.key_indices p = some c →
      (runCalls p N m).1 = (List.range N).map
        (fun i => some (keys.getD ((c + i) % keys.length) "")) ∧
      (runCalls p N m).2.api_keys = m.api_keys ∧
      lookupA (runCalls p N m).2.key_indices p =
        some ((c + N) % keys.length) := by
  intro N
  induction N with
  | zero =>
    intro m c hak hc hki
    refine ⟨rfl, rfl, ?_⟩
    show lookupA m.key_indices p = some ((c + 0) % keys.length)
    rw [hki, Nat.add_zero, Nat.mod_eq_of_lt hc]
  | succ n ih =>
    intro m c hak hc hki
    have hstep := get_next_api_key_spec m p keys c hak hc hki
    have hm2ak : ({ m with key_indices := setAssoc m.key_indices p ((c + 1) % keys.length) } : SearchAPIManager).api_keys = m.api_keys := rfl
    have hc2 : (c + 1) % keys.length < keys.length := Nat.mod_lt _ hP
    have hki2 : lookupA ({ m with key_indices := setAssoc m.key_indices p ((c + 1) % keys.length) } : SearchAPIManager).key_indices p = some ((c + 1) % keys.length) :=
      lookupA_setAssoc_self m.key_indices p ((c + 1) % keys.length)
    obtain ⟨ih1, ih2, ih3⟩ := ih
      { m with key_indices := setAssoc m.key_indices p ((c + 1) % keys.length) }
      ((c + 1) % keys.length) (hm2ak ▸ hak) hc2 hki2
    have harg : ∀ i : Nat,
        ((c + 1) % keys.length + i) % keys.length =
        (c + (i + 1)) % keys.length := by
      intro i
      rw [Nat.mod_add_mod]
      congr 1
      omega
    refine ⟨?_, ?_, ?_⟩
    · show ((m.get_next_api_key p).1 ::
          (runCalls p n (m.get_next_api_key p).2).1) = _
      rw [hstep]
      simp only []
      rw [ih1, List.range_succ_eq_map, List.map_cons, List.map_map]
      have hfun : (fun i => some (keys.getD (((c + 1) % keys.length + i) % keys.length) "")) = (fun i => some (keys.getD ((c + (i + 1)) % keys.length) "")) := by
        funext i
        rw [harg i]
      rw [hfun]
      congr 1
      rw [Nat.add_zero, Nat.mod_eq_of_lt hc]
    · show (runCalls p n (m.get_next_api_key p).2).2.api_keys = m.api_keys
      rw [hstep]
      simp only []
      rw [ih2]
    · show lookupA (runCalls p n (m.get_next_api_key p).2).2.key_indices p
        = some ((c + (n + 1)) % keys.length)
      rw [hstep]
      simp only []
      rw [ih3, harg n]

/-- Occurrences of `j` in `range n`: one when `j < n`, none otherwise. -/
theorem countP_eq_range (j n : Nat) :
    (List.range n).countP (fun i => i == j) = if j < n then 1 else 0 := by
  induction n with
  | zero => simp
  | succ n ih =>
    rw [List.range_succ, List.countP_append, ih]
    simp only [List.countP_cons, List.countP_nil, beq_iff_eq]
    by_cases h1 : j < n
    · have h2 : ¬ (n = j) := by omega
      have h3 : j < n + 1 := by omega
      simp [h1, h2, h3]
    · by_cases h2 : n = j
      · subst h2
        simp [h1]
      · have h3 : ¬ (j < n + 1) := by omega
        simp [h1, h2, h3]

/-- Over `q` full cycles, each residue class modulo `P` is hit exactly `q`
times. -/
theorem countP_mod_range_full (P j : Nat) (_hP : 0 < P) (hj : j < P) :
    ∀ q : Nat,
      (List.range (P * q)).countP (fun i => i % P == j) = q := by
  intro q
  induction q with
  | zero => simp
  | succ q ih =>
    have hmul : P * (q + 1) = P * q + P := by ring
    rw [hmul, List.range_add, List.countP_append, ih, List.countP_map]
    have hcg : ∀ x ∈ List.range P,
        ((fun i => i % P == j) ∘ (fun y => P * q + y)) x ↔
        ((fun i => i == j) x) := by
      intro x hx
      rw [List.mem_range] at hx
      simp only [Function.comp, beq_iff_eq]
      rw [Nat.mul_add_mod, Nat.mod_eq_of_lt hx]
    rw [List.countP_congr hcg, countP_eq_range]
    simp [hj]

/-- Residue-class counting over an arbitrary range: `⌊N/P⌋` hits plus one
more for residues below `N mod P`. -/
theorem countP_mod_range (P j : Nat) (hP : 0 < P) (hj : j < P) (N : Nat) :
    (List.range N).countP (fun i => i % P == j) =
      N / P + if j < N % P then 1 else 0 := by
  have hN : P * (N / P) + N % P = N := Nat.div_add_mod N P
  conv_lhs => rw [← hN]
  rw [List.range_add, List.countP_append,
    countP_mod_range_full P j hP hj (N / P), List.countP_map]
  congr 1
  have hcg : ∀ x ∈ List.range (N % P),
      ((fun i => i % P == j) ∘ (fun y => P * (N / P) + y)) x ↔
      ((fun i => i == j) x) := by
    intro x hx
    rw [List.mem_range] at hx
    have hxP : x < P := Nat.lt_of_lt_of_le hx (Nat.le_of_lt (Nat.mod_lt _ hP))
    simp only [Function.comp, beq_iff_eq]
    rw [Nat.mul_add_mod, Nat.mod_eq_of_lt hxP]
  rw [List.countP_congr hcg, countP_eq_range]

theorem ceil_div_aux (P q r : Nat) (hP : 0 < P) (h1 : 0 < r)
    (h2 : r < P) :
    (P * q + r) / P + 1 = (P * q + r + P - 1) / P := by
  rw [Nat.mul_add_div hP, Nat.div_eq_of_lt h2]
  have harg : P * q + r + P - 1 = (r - 1) + P * (q + 1) := by
    have hm : P * (q + 1) = P * q + P := by ring
    rw [hm]
    generalize P * q = A
    omega
  rw [harg, Nat.add_mul_div_left _ _ hP,
    Nat.div_eq_of_lt (show r - 1 < P by omega)]
  omega

/-- When `N` is not a multiple of `P`, the ceiling of `N/P` is `N/P + 1`. -/
theorem ceil_div_of_pos_mod (P N : Nat) (hP : 0 < P) (hr : 0 < N % P) :
    N / P + 1 = (N + P - 1) / P := by
  have hdm : P * (N / P) + N % P = N := Nat.div_add_mod N P
  have hrP : N % P < P := Nat.mod_lt _ hP
  have h := ceil_div_aux P (N / P) (N % P) hP hr hrP
  rw [hdm] at h
  exact h

/-- Counting one credential among the keys returned by `N` rotation calls
(cursor starting at 0): exactly `⌊N/P⌋ + [j < N mod P]` occurrences. -/
theorem rotation_count (keys : List String) (hP : 0 < keys.length)
    (hnd : keys.Nodup) (j : Nat) (hj : j < keys.length) (N : Nat) :
    ((List.range N).map
        (fun i => some (keys.getD (i % keys.length) ""))).count
      (some (keys.getD j "")) =
    N / keys.length + if j < N % keys.length then 1 else 0 := by
  rw [List.count_eq_countP, List.countP_map]
  have hcg : ∀ i ∈ List.range N,
      ((fun x => x == some (keys.getD j "")) ∘
        (fun i => some (keys.getD (i % keys.length) ""))) i ↔
      ((fun i => i % keys.length == j) i) := by
    intro i _
    have h1 : i % keys.length < keys.length := Nat.mod_lt _ hP
    simp only [Function.comp, beq_iff_eq, Option.some.injEq]
    rw [getD_eq_getElem_of_lt h1, getD_eq_getElem_of_lt hj]
    exact hnd.getElem_inj_iff
  rw [List.countP_congr hcg, countP_mod_range keys.length j hP hj N]

/-- **C2**: for a provider with `P ≥ 1` configured (pairwise-distinct)
credentials, the `N` consecutive keys returned by the rotation store from a
fresh manager use each credential `⌊N/P⌋` or `⌈N/P⌉` times (the ceiling
written `(N + P - 1) / P`), and among `N + 1` consecutive calls the
`(N+1)`-th call returns the credential at the cursor position cyclically
following the one the `N`-th call returned. -/
theorem c2_round_robin (ak : List (String × List String)) (p : String)
    (keys : List String) (hak : lookupA ak p = some keys)
    (hP : 0 < keys.length) (hnd : keys.Nodup)
    (N j : Nat) (hN : 1 ≤ N) (hj : j < keys.length) :
    ((runCalls p N (mkManager ak)).1.count (some (keys.getD j "")) =
        N / keys.length ∨
      (runCalls p N (mkManager ak)).1.count (some (keys.getD j "")) =
        (N + keys.length - 1) / keys.length) ∧
    (runCalls p (N + 1) (mkManager ak)).1[N - 1]? =
      some (some (keys.getD ((N - 1) % keys.length) "")) ∧
    (runCalls p (N + 1) (mkManager ak)).1[N]? =
      some (some (keys.getD
        (((N - 1) % keys.length + 1) % keys.length) "")) := by
  have hak0 : lookupA (mkManager ak).api_keys p = some keys := hak
  have hki0 : lookupA (mkManager ak).key_indices p = some 0 := by
    show lookupA (ak.map fun pr => (pr.1, 0)) p = some 0
    rw [lookupA_map_zero, hak]
    rfl
  obtain ⟨h1, -, -⟩ :=
    runCalls_spec p keys hP N (mkManager ak) 0 hak0 hP hki0
  obtain ⟨h1b, -, -⟩ :=
    runCalls_spec p keys hP (N + 1) (mkManager ak) 0 hak0 hP hki0
  have hz : (fun i => some (keys.getD ((0 + i) % keys.length) "")) =
      (fun i => some (keys.getD (i % keys.length) "")) := by
    funext i
    rw [Nat.zero_add]
  refine ⟨?_, ?_, ?_⟩
  · rw [h1, hz, rotation_count keys hP hnd j hj N]
    by_cases hlt : j < N % keys.length
    · right
      rw [if_pos hlt]
      exact ceil_div_of_pos_mod keys.length N hP
        (Nat.lt_of_le_of_lt (Nat.zero_le j) hlt)
    · left
      rw [if_neg hlt]
      omega
  · rw [h1b, hz, List.getElem?_map,
      List.getElem?_range (show N - 1 < N + 1 by omega)]
    rfl
  · rw [h1b, hz, List.getElem?_map,
      List.getElem?_range (show N < N + 1 by omega)]
    have hmod : ((N - 1) % keys.length + 1) % keys.length =
        N % keys.length := by
      rw [Nat.mod_add_mod]
      congr 1
      omega
    rw [hmod]
    rfl

/-- Witness for C2: three distinct SERPER keys, `N = 4`, credential index 1
(`"b"`): used `1 = ⌊4/3⌋` time among the first 4 calls; the 4th call
returns `"a"` (cursor 0) and the 5th returns `"b"` (cursor 1). -/
theorem c2_round_robin_witness :
    ((runCalls "SERPER" 4 (mkManager [("SERPER", ["a", "b", "c"])])).1.count
        (some "b") = 1 ∨
      (runCalls "SERPER" 4 (mkManager [("SERPER", ["a", "b", "c"])])).1.count
        (some "b") = 2) ∧
    (runCalls "SERPER" 5 (mkManager [("SERPER", ["a", "b", "c"])])).1[3]? =
      some (some "a") ∧
    (runCalls "SERPER" 5 (mkManager [("SERPER", ["a", "b", "c"])])).1[4]? =
      some (some "b") :=
  c2_round_robin [("SERPER", ["a", "b", "c"])] "SERPER" ["a", "b", "c"]
    (by decide) (by decide) (by decide) 4 1 (by decide) (by decide)

/-- `lookupA` misses lists none of whose entries carry the key. -/
theorem lookupA_eq_none {α : Type} {l : List (String × α)} {p : String}
    (h : ∀ pr ∈ l, pr.1 ≠ p) : lookupA l p = none := by
  induction l with
  | nil => rfl
  | cons pr rest ih =>
    obtain ⟨k, v⟩ := pr
    have hk : k ≠ p := h (k, v) (List.mem_cons_self _ _)
    simp only [lookupA, if_neg hk]
    exact ih (fun pr hpr => h pr (List.mem_cons_of_mem _ hpr))

/-- A provider whose collected credential list is empty is absent from the
loaded `api_keys`. -/
theorem load_api_keys_absent (env : String → Option String) (fuel : Nat)
    (p : String) (h : collectKeysFor env p fuel = []) :
    lookupA (load_api_keys env fuel) p = none := by
  apply lookupA_eq_none
  intro pr hpr
  rw [load_api_keys] at hpr
  obtain ⟨q, _, hq⟩ := List.mem_filterMap.mp hpr
  by_cases he : (collectKeysFor env q fuel).isEmpty
  · simp [he] at hq
  · simp only [he, Bool.false_eq_true, if_false, Option.some.injEq] at hq
    intro hp1
    rw [← hq] at hp1
    simp at hp1
    subst hp1
    rw [h] at he
    simp at he

/-- **C8**: a provider with zero configured credentials is never inserted by
the loader, so after any sequence of rotation calls `get_next_api_key`
still returns `none` for it and leaves the manager unchanged (the model is
a total function: this code path returns before any partial operation, so
no exception is possible). -/
theorem c8_zero_credentials (env : String → Option String) (fuel : Nat)
    (p : String) (calls : List String)
    (h : collectKeysFor env p fuel = []) :
    (applyCalls calls (mkManager (load_api_keys env fuel))).get_next_api_key
        p =
      (none, applyCalls calls (mkManager (load_api_keys env fuel))) := by
  apply get_next_api_key_absent
  rw [applyCalls_api_keys]
  show lookupA (load_api_keys env fuel) p = none
  exact load_api_keys_absent env fuel p h

/-- Witness for C8: an empty environment configures nobody; after two prior
calls the SERPER lookup still returns `none`. -/
theorem c8_zero_credentials_witness :
    (applyCalls ["GOOGLE", "SERPER"]
        (mkManager (load_api_keys (fun _ => none) 3))).get_next_api_key
        "SERPER" =
      (none, applyCalls ["GOOGLE", "SERPER"]
        (mkManager (load_api_keys (fun _ => none) 3))) :=
  c8_zero_credentials (fun _ => none) 3 "SERPER" ["GOOGLE", "SERPER"]
    (by decide)

/-! ## Adapter and aggregator theorems -/

/-- Counterexample to **C5**: the claim states every failure result carries
both the provider's name and an error description, but the failure dicts of
`_search_serper` (missing key, non-200 status, caught exception) contain no
`provider` key at all — here the HTTP-403 failure has `provider = none`. -/
theorem c5_counterexample :
    ¬ (∀ (key : Option String) (net : NetOutcome),
        (search_serper key net).success = false →
        (search_serper key net).provider ≠ none ∧
        (search_serper key net).error ≠ none) := by
  intro h
  have h2 := h (some "k") (.response 403 []) (by decide)
  exact h2.1 (by decide)

/-- **C5 (amended)**: every failure result of the Serper and Google adapters
carries an error description, but no provider tag (`provider = none`); only
the success results carry the provider's name. -/
theorem c5_amended (key cse : Option String) (net : NetOutcome) :
    ((search_serper key net).success = false →
      (search_serper key net).error.isSome ∧
      (search_serper key net).provider = none) ∧
    ((search_serper key net).success = true →
      (search_serper key net).provider = some "SERPER") ∧
    ((search_google key cse net).success = false →
      (search_google key cse net).error.isSome ∧
      (search_google key cse net).provider = none) ∧
    ((search_google key cse net).success = true →
      (search_google key cse net).provider = some "GOOGLE") := by
  have hser : ((search_serper key net).success = false →
      (search_serper key net).error.isSome ∧
      (search_serper key net).provider = none) ∧
      ((search_serper key net).success = true →
        (search_serper key net).provider = some "SERPER") := by
    unfold search_serper
    by_cases ht : truthyS key
    · cases net with
      | raises msg => simp [ht]
      | response st items =>
        by_cases h200 : st = 200 <;> simp [ht, h200]
    · simp [ht]
  have hgoo : ((search_google key cse net).success = false →
      (search_google key cse net).error.isSome ∧
      (search_google key cse net).provider = none) ∧
      ((search_google key cse net).success = true →
        (search_google key cse net).provider = some "GOOGLE") := by
    unfold search_google
    by_cases ht : truthyS key
    · by_cases hc : truthyS cse
      · cases net with
        | raises msg => simp [ht, hc]
        | response st items =>
          by_cases h200 : st = 200 <;> simp [ht, hc, h200]
      · simp [ht, hc]
    · simp [ht]
  exact ⟨hser.1, hser.2, hgoo.1, hgoo.2⟩

/-- Witness for the amended C5 at concrete inputs: a raised exception yields
an error-only failure, a 200 response yields a provider-tagged success. -/
theorem c5_amended_witness :
    ((search_serper none (.raises "x")).error.isSome ∧
      (search_serper none (.raises "x")).provider = none) ∧
    (search_serper (some "k") (.response 200 [])).provider = some "SERPER" ∧
    ((search_google (some "k") none (.response 200 [])).error.isSome ∧
      (search_google (some "k") none (.response 200 [])).provider = none) :=
  ⟨(c5_amended none none (.raises "x")).1 (by decide),
   (c5_amended (some "k") none (.response 200 [])).2.1 (by decide),
   (c5_amended (some "k") none (.response 200 [])).2.2.1 (by decide)⟩

/-- Counterexample to **C1**: in the run where a top-level unexpected
exception strikes during the URL-consolidation loop — after stage 1 already
recorded one API source — the partial result is returned with an `error`
field but `total_sources` still holds its initial 0, so the arithmetic
invariant `total_sources = api_sources + websailor_pages + social_posts`
fails for that result object. -/
theorem c1_counterexample :
    (execute_massive_search_with_websailor [("SERPER", ["k"])]
        (fun _ => .res { success := true }) (.ok {}) (fun _ => .ok {})
        (fun _ _ => []) none (some (.duringConsolidation, "boom")) 5).error =
      some "boom" ∧
    (execute_massive_search_with_websailor [("SERPER", ["k"])]
        (fun _ => .res { success := true }) (.ok {}) (fun _ => .ok {})
        (fun _ _ => []) none (some (.duringConsolidation, "boom"))
        5).statistics.api_sources = 1 ∧
    ¬ ((execute_massive_search_with_websailor [("SERPER", ["k"])]
        (fun _ => .res { success := true }) (.ok {}) (fun _ => .ok {})
        (fun _ _ => []) none (some (.duringConsolidation, "boom"))
        5).statistics.total_sources =
      (execute_massive_search_with_websailor [("SERPER", ["k"])]
        (fun _ => .res { success := true }) (.ok {}) (fun _ => .ok {})
        (fun _ _ => []) none (some (.duringConsolidation, "boom"))
        5).statistics.api_sources +
      (execute_massive_search_with_websailor [("SERPER", ["k"])]
        (fun _ => .res { success := true }) (.ok {}) (fun _ => .ok {})
        (fun _ _ => []) none (some (.duringConsolidation, "boom"))
        5).statistics.websailor_pages +
      (execute_massive_search_with_websailor [("SERPER", ["k"])]
        (fun _ => .res { success := true }) (.ok {}) (fun _ => .ok {})
        (fun _ _ => []) none (some (.duringConsolidation, "boom"))
        5).statistics.social_posts) := by
  refine ⟨rfl, rfl, ?_⟩
  decide

/-- **C1 (amended)**: for every run in which no unexpected top-level
exception fires (every run that reaches the final statistics block), the
returned statistics satisfy
`total_sources = api_sources + websailor_pages + social_posts`; in a
top-level-exception run `total_sources` keeps its initial 0, which can
differ from the partial component counts. -/
theorem c1_total_sources_no_fault (ak : List (String × List String))
    (adapter : String → AdapterOutcome)
    (websailor : Except String WebsailorResult)
    (social : List ProviderResult → Except String SocialResult)
    (extract : SearchItem → String → List String)
    (leadsFault : Option String) (t : Nat) :
    (execute_massive_search_with_websailor ak adapter websailor social
        extract leadsFault none t).statistics.total_sources =
      (execute_massive_search_with_websailor ak adapter websailor social
        extract leadsFault none t).statistics.api_sources +
      (execute_massive_search_with_websailor ak adapter websailor social
        extract leadsFault none t).statistics.websailor_pages +
      (execute_massive_search_with_websailor ak adapter websailor social
        extract leadsFault none t).statistics.social_posts := by
  cases websailor with
  | ok w =>
    cases hsoc : social ((interleaved_search ak adapter).all_results) with
    | ok s =>
      cases leadsFault <;>
        simp [execute_massive_search_with_websailor, catAt, hsoc]
    | error e =>
      cases leadsFault <;>
        simp [execute_massive_search_with_websailor, catAt, hsoc]
  | error e2 =>
    cases hsoc : social ((interleaved_search ak adapter).all_results) with
    | ok s =>
      cases leadsFault <;>
        simp [execute_massive_search_with_websailor, catAt, hsoc]
    | error e =>
      cases leadsFault <;>
        simp [execute_massive_search_with_websailor, catAt, hsoc]

/-- **C6**: when the deep-navigation collaborator raises, the aggregator
still returns the API-stage data (`api_results`, `consolidated_urls`,
`api_sources`), the statistics keep `websailor_pages = 0`, the stage error
is recorded inline, and the social-extraction and leads stages still
execute (their result fields are populated from their own inputs). -/
theorem c6_websailor_failure_isolated (ak : List (String × List String))
    (adapter : String → AdapterOutcome) (e : String)
    (social : List ProviderResult → Except String SocialResult)
    (extract : SearchItem → String → List String)
    (leadsFault : Option String) (t : Nat) :
    (execute_massive_search_with_websailor ak adapter (.error e) social
      extract leadsFault none t).api_results =
      some (interleaved_search ak adapter).all_results ∧
    (execute_massive_search_with_websailor ak adapter (.error e) social
      extract leadsFault none t).consolidated_urls =
      some (aggConsolidate (interleaved_search ak adapter).all_results) ∧
    (execute_massive_search_with_websailor ak adapter (.error e) social
      extract leadsFault none t).statistics.api_sources =
      (interleaved_search ak adapter).all_results.length ∧
    (execute_massive_search_with_websailor ak adapter (.error e) social
      extract leadsFault none t).statistics.websailor_pages = 0 ∧
    (execute_massive_search_with_websailor ak adapter (.error e) social
      extract leadsFault none t).websailor_results = .err e ∧
    (execute_massive_search_with_websailor ak adapter (.error e) social
      extract leadsFault none t).social_results =
      (match social (interleaved_search ak adapter).all_results with
        | .ok s => StageField.ok s
        | .error m => StageField.err m) ∧
    (execute_massive_search_with_websailor ak adapter (.error e) social
      extract leadsFault none t).leads_extracted =
      some (match leadsFault with
        | some _ => []
        | none => extractLeadsFromResults extract
            (interleaved_search ak adapter).all_results) := by
  cases hsoc : social ((interleaved_search ak adapter).all_results) with
  | ok s =>
    cases leadsFault <;>
      simp [execute_massive_search_with_websailor, catAt, hsoc]
  | error m =>
    cases leadsFault <;>
      simp [execute_massive_search_with_websailor, catAt, hsoc]

/-- Counterexample to **C4**: the claim requires each stage's failure to be
recorded as an inline error value scoped to that stage, but the
lead-extraction stage's handler (lines 471-474) resets the lead fields and
records nothing: the returned result does not determine the exception
message — no extraction function can read it back, because runs failing
with different messages are equal. -/
theorem c4_counterexample :
    ¬ ∃ f : MassiveResult → Option String,
      ∀ msg : String,
        f (execute_massive_search_with_websailor [] (fun _ => .exn "")
            (.ok {}) (fun _ => .ok {}) (fun _ _ => []) (some msg) none 0) =
          some msg := by
  rintro ⟨f, hf⟩
  have h1 := hf "a"
  have h2 := hf "b"
  have heq : execute_massive_search_with_websailor [] (fun _ => .exn "")
      (.ok {}) (fun _ => .ok {}) (fun _ _ => []) (some "a") none 0 =
      execute_massive_search_with_websailor [] (fun _ => .exn "")
      (.ok {}) (fun _ => .ok {}) (fun _ _ => []) (some "b") none 0 := rfl
  rw [heq] at h1
  rw [h1] at h2
  exact absurd h2 (by decide)

/-- **C4 (amended)**: the deep-navigation and social-extraction stages do
record inline, stage-scoped error values and later stages still execute;
the lead-extraction stage's failure is instead absorbed silently — leads
are reset to `[]` with `leads_count = 0`, the top-level `error` stays
absent, and the final statistics step still runs. -/
theorem c4_amended (ak : List (String × List String))
    (adapter : String → AdapterOutcome) (w : WebsailorResult)
    (social : List ProviderResult → Except String SocialResult)
    (extract : SearchItem → String → List String)
    (e2 e3 e4 : String) (t : Nat) :
    (execute_massive_search_with_websailor ak adapter (.error e2) social
      extract none none t).websailor_results = .err e2 ∧
    (execute_massive_search_with_websailor ak adapter (.error e2) social
      extract none none t).social_results =
      (execute_massive_search_with_websailor ak adapter (.ok w) social
        extract none none t).social_results ∧
    (execute_massive_search_with_websailor ak adapter (.error e2) social
      extract none none t).leads_extracted =
      (execute_massive_search_with_websailor ak adapter (.ok w) social
        extract none none t).leads_extracted ∧
    (execute_massive_search_with_websailor ak adapter (.ok w)
      (fun _ => .error e3) extract none none t).social_results = .err e3 ∧
    (execute_massive_search_with_websailor ak adapter (.ok w)
      (fun _ => .error e3) extract none none t).leads_extracted =
      some (extractLeadsFromResults extract
        (interleaved_search ak adapter).all_results) ∧
    (execute_massive_search_with_websailor ak adapter (.ok w) social
      extract (some e4) none t).leads_extracted = some [] ∧
    (execute_massive_search_with_websailor ak adapter (.ok w) social
      extract (some e4) none t).statistics.leads_count = some 0 ∧
    (execute_massive_search_with_websailor ak adapter (.ok w) social
      extract (some e4) none t).error = none ∧
    (execute_massive_search_with_websailor ak adapter (.ok w) social
      extract (some e4) none t).statistics.search_duration = t := by
  cases hsoc : social ((interleaved_search ak adapter).all_results) with
  | ok s => simp [execute_massive_search_with_websailor, catAt, hsoc]
  | error m => simp [execute_massive_search_with_websailor, catAt, hsoc]
